import Mathlib

set_option maxRecDepth 40000
set_option linter.unnecessarySimpa false

/-!
# Verification of the SimpleTftp protocol engine (src/tftp.py)

A shallow embedding of the TFTP packet codec and transfer engine of
`src/tftp.py`. Byte strings are `List Nat` (each entry one byte), Python
`str` values are modelled as their byte sequences (the code only handles
ASCII data, where `str.encode`/`bytes.decode` are the identity on codes).
Python exceptions are modelled by the inductive `PyExc`; fallible
functions return `Except PyExc α`. The transfer engines are modelled as
functions of the list of datagrams `(bytes, sourceAddress)` delivered by
`recvfrom`; exhaustion of that list models the inactivity timeout firing.
-/

namespace TFTP

abbrev Bytes := List Nat

/-! ## Protocol constants (src/tftp.py lines 20-60) -/

def MAX_DATA_LEN : Nat := 512
def MAX_BLOCK_NUMBER : Nat := 2 ^ 16 - 1

def RRQ : Nat := 1
def WRQ : Nat := 2
def DAT : Nat := 3
def ACK : Nat := 4
def ERR : Nat := 5

def ERR_NOT_DEFINED : Nat := 0
def ERR_FILE_NOT_FOUND : Nat := 1
def ERR_ACCESS_VIOLATION : Nat := 2
def DISK_FULL_OR_ALLOC_EXC : Nat := 3
def ILLEGAL_TFTP_OP : Nat := 4
def UNKOWN_TRANSF_ID : Nat := 5
def FILE_ALREADY_EXISTS : Nat := 6
def NO_SUCH_USER : Nat := 7

/-- Model of `str.encode()` for the ASCII strings appearing in the source. -/
def strBytes (s : String) : Bytes := s.data.map Char.toNat

/-- Membership test of a key in the `ERROR_MESSAGES` dict (keys 0..7). -/
def errorMessagesHasKey (code : Int) : Bool := 0 ≤ code ∧ code ≤ 7

/-- The values of the `ERROR_MESSAGES` dict of src/tftp.py. -/
def ERROR_MESSAGES (code : Nat) : Bytes :=
  match code with
  | 0 => strBytes "Not defined, see error message(if any)."
  | 1 => strBytes "File not found"
  | 2 => strBytes "Access violation"
  | 3 => strBytes "Disk full or allocation exceeded."
  | 4 => strBytes "Illegal TFTP operation"
  | 5 => strBytes "Unkown Transfer ID"
  | 6 => strBytes "File already exists"
  | 7 => strBytes "No such user"
  | _ => []

/-- The bytes of `DEFAULT_MODE = 'octet'`. -/
def DEFAULT_MODE : Bytes := strBytes "octet"

/-! ## Python exception model

The source's exception classes: `TFTPValueError` subclasses `ValueError`;
`ProtocolError` subclasses `NetworkError` which subclasses `Exception`;
`Err(code, msg)` is the server-signalled error. `valueError` stands for a
plain `ValueError` (raised e.g. by `bytes.index` when no NUL is found) and
`structError` for `struct.error` on a short buffer. -/

inductive PyExc where
  | tftpValueError : PyExc
  | valueError : PyExc
  | structError : PyExc
  | protocolError : PyExc
  | errPacket (code : Nat) (msg : Bytes) : PyExc
  deriving DecidableEq, Repr

/-- Which modelled exceptions are Python `ValueError`s
(`TFTPValueError` is a `ValueError` subclass). -/
def PyExc.isValueError : PyExc → Bool
  | .tftpValueError => true
  | .valueError => true
  | _ => false

/-! ## `string.printable` and `is_ascii_printable` (src/tftp.py 430-432) -/

/-- The byte codes of Python's `string.printable`:
digits, ascii lowercase, ascii uppercase, punctuation, whitespace
(space, tab, linefeed, carriage return, vertical tab, form feed).
The apostrophe (code 39) sits inside the punctuation run. -/
def string_printable : Bytes :=
  strBytes "0123456789abcdefghijklmnopqrstuvwxyz" ++
  strBytes "ABCDEFGHIJKLMNOPQRSTUVWXYZ" ++
  strBytes "!\"#$%&" ++ [39] ++ strBytes "()*+,-./:;<=>?@[\\]^_`\x7b|\x7d~" ++
  [32, 9, 10, 13, 11, 12]

/-- Model of `is_ascii_printable(txt)`: `set(txt).issubset(string.printable)`. -/
def is_ascii_printable (txt : Bytes) : Bool :=
  txt.all (fun c => string_printable.contains c)

/-! ## Packet packing (src/tftp.py 300-390)

`struct.pack('!H', n)` for `0 ≤ n ≤ 65535` yields the two bytes of `n`
in big-endian (network) order. -/

/-- The two network-order bytes of a 16-bit value. -/
def be16 (n : Nat) : Bytes := [n / 256 % 256, n % 256]

/-- The 16-bit value of two network-order bytes. -/
def u16 (b0 b1 : Nat) : Nat := b0 * 256 + b1

/-- Model of `_pack_rrq_wrq(opcode, filename, mode)`. -/
def pack_rrq_wrq (opcode : Nat) (filename : Bytes) (mode : Bytes) :
    Except PyExc Bytes :=
  if ¬ is_ascii_printable filename then .error .tftpValueError
  else .ok (be16 opcode ++ (filename ++ [0]) ++ (mode ++ [0]))

/-- Model of `pack_rrq(filename, mode='octet')`. -/
def pack_rrq (filename : Bytes) (mode : Bytes := DEFAULT_MODE) :
    Except PyExc Bytes :=
  pack_rrq_wrq RRQ filename mode

/-- Model of `pack_wrq(filename, mode='octet')`. -/
def pack_wrq (filename : Bytes) (mode : Bytes := DEFAULT_MODE) :
    Except PyExc Bytes :=
  pack_rrq_wrq WRQ filename mode

/-- Model of `pack_dat(block_number, data)`. The block number is an `Int` since the
Python check `0 <= block_number <= MAX_BLOCK_NUMBER` also rejects
negatives. -/
def pack_dat (block_number : Int) (data : Bytes) : Except PyExc Bytes :=
  if ¬ (0 ≤ block_number ∧ block_number ≤ (MAX_BLOCK_NUMBER : Int)) then
    .error .tftpValueError
  else if data.length > MAX_DATA_LEN then .error .tftpValueError
  else .ok (be16 DAT ++ be16 block_number.toNat ++ data)

/-- Model of `pack_ack(block_number)`. -/
def pack_ack (block_number : Int) : Except PyExc Bytes :=
  if ¬ (0 ≤ block_number ∧ block_number ≤ (MAX_BLOCK_NUMBER : Int)) then
    .error .tftpValueError
  else .ok (be16 ACK ++ be16 block_number.toNat)

/-- Specialization of `pack_dat` to how the transfer engine invokes it: the engine's Python
block counter is a nonnegative `int`, so the `0 <= block_number` half of
the range check is automatic on `Nat`; `pack_dat_nat_eq` below proves this
agrees with `pack_dat` on every `Nat` block number. -/
def pack_dat_nat (block_number : Nat) (data : Bytes) : Except PyExc Bytes :=
  if ¬ (block_number ≤ MAX_BLOCK_NUMBER) then .error .tftpValueError
  else if data.length > MAX_DATA_LEN then .error .tftpValueError
  else .ok (be16 DAT ++ be16 block_number ++ data)

/-- Specialization of `pack_ack` to how the transfer engine invokes it (see `pack_dat_nat`);
`pack_ack_nat_eq` below proves it agrees with `pack_ack`. -/
def pack_ack_nat (block_number : Nat) : Except PyExc Bytes :=
  if ¬ (block_number ≤ MAX_BLOCK_NUMBER) then .error .tftpValueError
  else .ok (be16 ACK ++ be16 block_number)

/-- Model of `pack_err(error_code, error_msg=None)`. -/
def pack_err (error_code : Int) (error_msg : Option Bytes := none) :
    Except PyExc Bytes :=
  if ¬ errorMessagesHasKey error_code then .error .tftpValueError
  else
    let msg := match error_msg with
      | none => ERROR_MESSAGES error_code.toNat
      | some m => m
    .ok (be16 ERR ++ be16 error_code.toNat ++ (msg ++ [0]))

/-! ## Packet unpacking (src/tftp.py 314-390) -/

/-- Model of `unpack_opcode(packet)`: `struct.unpack('!H', packet[:2])` then a
membership check against the five legal opcodes. A packet shorter than two
bytes makes `struct.unpack` fail. -/
def unpack_opcode (packet : Bytes) : Except PyExc Nat :=
  match packet with
  | b0 :: b1 :: _ =>
    let opcode := u16 b0 b1
    if opcode = RRQ ∨ opcode = WRQ ∨ opcode = DAT ∨ opcode = ACK ∨
        opcode = ERR then
      .ok opcode
    else .error .tftpValueError
  | _ => .error .structError

/-- Model of `packet.index(b'\x00', start)`: the index of the first zero byte at
position `start` or later, or a plain `ValueError`. Modelled by the offset
of the first zero in `packet.drop start`. -/
def findZero : Bytes → Option Nat
  | [] => none
  | b :: rest => if b = 0 then some 0 else (findZero rest).map (· + 1)

/-- Model of `_unpack_rrq_wrq(opcode, packet)`. `filename = packet[2:delim_pos]`,
`mode = packet[delim_pos+1:-1]`. -/
def unpack_rrq_wrq (opcode : Nat) (packet : Bytes) :
    Except PyExc (Bytes × Bytes) := do
  let received ← unpack_opcode packet
  if opcode ≠ received then .error .tftpValueError
  else
    match findZero (packet.drop 2) with
    | none => .error .valueError
    | some i =>
      let delim_pos := 2 + i
      .ok ((packet.drop 2).take i, (packet.drop (delim_pos + 1)).dropLast)

/-- Model of `unpack_rrq(packet)`. -/
def unpack_rrq (packet : Bytes) : Except PyExc (Bytes × Bytes) :=
  unpack_rrq_wrq RRQ packet

/-- Model of `unpack_wrq(packet)`. -/
def unpack_wrq (packet : Bytes) : Except PyExc (Bytes × Bytes) :=
  unpack_rrq_wrq WRQ packet

/-- Model of `unpack_dat(packet)`: `struct.unpack('!HH', packet[:4])`, an opcode
check, then `(block_number, packet[4:])` with no payload-length check. -/
def unpack_dat (packet : Bytes) : Except PyExc (Nat × Bytes) :=
  match packet with
  | b0 :: b1 :: b2 :: b3 :: rest =>
    if u16 b0 b1 ≠ DAT then .error .tftpValueError
    else .ok (u16 b2 b3, rest)
  | _ => .error .structError

/-- Model of `unpack_ack(packet)`: `struct.unpack('!HH', packet)` requires the
packet to be exactly four bytes. -/
def unpack_ack (packet : Bytes) : Except PyExc Nat :=
  match packet with
  | [b0, b1, b2, b3] =>
    if u16 b0 b1 ≠ ACK then .error .tftpValueError
    else .ok (u16 b2 b3)
  | _ => .error .structError

/-- Model of `unpack_err(packet)`: `struct.unpack('!HH', packet[:4])`, an opcode
check, then `(error_code, packet[4:-1])`. -/
def unpack_err (packet : Bytes) : Except PyExc (Nat × Bytes) :=
  match packet with
  | b0 :: b1 :: b2 :: b3 :: rest =>
    if u16 b0 b1 ≠ ERR then .error .tftpValueError
    else .ok (u16 b2 b3, rest.dropLast)
  | _ => .error .structError

/-! ## Transfer engines (src/tftp.py 64-226)

`recvfrom` deliveries are modelled as a list of `(packet, sourceAddress)`
pairs; addresses are abstract (`Nat`). The end of the list models the
inactivity timeout firing (`socket.timeout`). Each engine records the
datagrams it sends, in order, as `(bytes, destinationAddress)` pairs. -/

/-- A datagram delivered to or sent by the engine: payload and address. -/
abbrev Datagram := Bytes × Nat

/-- Model of `check_remote_file(server, port, remote_filename)` (lines 64-95).
The receive loop body returns or raises on every branch, so only the first
delivered datagram matters; `socket.timeout` is caught and yields `False`.
`pack_rrq` may itself raise before the loop. The result is the returned
boolean or the escaping exception. -/
def check_remote_file (remote_filename : Bytes) (events : List Datagram) :
    Except PyExc Bool := do
  let _ ← pack_rrq remote_filename
  match events with
  | [] => pure false
  | (packet, _) :: _ =>
    let opcode ← unpack_opcode packet
    if opcode = DAT then pure true
    else if opcode = ERR then do
      let (error_code, _) ← unpack_err packet
      if error_code = ERR_FILE_NOT_FOUND then pure false
      else .error (.errPacket error_code (strBytes "File existence check error"))
    else .error .protocolError

/-- Outcome of `get_file`: either the raised exception of the initial
`pack_rrq` (line 115, outside the `try`), or normal return `True`, or the
process exit caused by the catch-all `except Exception` (lines 162-164).
`file` is the content written to the local file and `sent` every datagram
passed to `sock.sendto`, the initial RRQ included. -/
inductive GetResult where
  | raised (e : PyExc)
  | success (file : Bytes) (sent : List Datagram)
  | exited (code : Nat) (file : Bytes) (sent : List Datagram)
  deriving DecidableEq, Repr

/-- The receive loop of `get_file` (lines 122-164). Every exception inside
the loop — protocol errors, server errors, codec errors, and the timeout —
is caught by `except Exception` which prints and calls `sys.exit(1)`. -/
def get_file_loop (events : List Datagram) (block_number : Nat)
    (file : Bytes) (sent : List Datagram) : GetResult :=
  match events with
  | [] => .exited 1 file sent
  | (dat_packet, server_addr) :: rest =>
    match unpack_opcode dat_packet with
    | .error _ => .exited 1 file sent
    | .ok dat_opcode =>
      if dat_opcode = DAT then
        match unpack_dat dat_packet with
        | .error _ => .exited 1 file sent
        | .ok (dat_block_number, data) =>
          if dat_block_number = block_number then
            let file := file ++ data
            match pack_ack_nat block_number with
            | .error _ => .exited 1 file sent
            | .ok ack_packet =>
              let sent := sent ++ [(ack_packet, server_addr)]
              if data.length < MAX_DATA_LEN then .success file sent
              else get_file_loop rest (block_number + 1) file sent
          else .exited 1 file sent
      else .exited 1 file sent

/-- Model of `get_file(server, port, remote_filename, local_filename)`
(lines 107-164). `origAddr` stands for `(server, port)`. -/
def get_file (origAddr : Nat) (remote_filename : Bytes)
    (events : List Datagram) : GetResult :=
  match pack_rrq remote_filename with
  | .error e => .raised e
  | .ok rrq => get_file_loop events 1 [] [(rrq, origAddr)]

/-- Outcome of `put_file`: normal return `True`, or the process exit from
the catch-all `except Exception` (lines 224-226), which in `put_file` also
covers the initial `pack_wrq`. `sent` is every datagram passed to
`sock.sendto`, the initial WRQ included. -/
inductive PutResult where
  | success (sent : List Datagram)
  | exited (code : Nat) (sent : List Datagram)
  deriving DecidableEq, Repr

/-- The receive loop of `put_file` (lines 189-222). `in_file.read(512)`
from the current offset is `(file.drop offset).take 512`. On a matching
Ack the block number is incremented first, then the next chunk is read and
sent as `Data(block_number, chunk)` to the Ack's source address. All
exceptions, the timeout included, reach `except Exception` → `sys.exit(1)`. -/
def put_file_loop (events : List Datagram) (block_number : Nat)
    (offset : Nat) (file : Bytes) (sent : List Datagram) : PutResult :=
  match events with
  | [] => .exited 1 sent
  | (ack_packet, server_addr) :: rest =>
    match unpack_opcode ack_packet with
    | .error _ => .exited 1 sent
    | .ok ack_opcode =>
      if ack_opcode = ACK then
        match unpack_ack ack_packet with
        | .error _ => .exited 1 sent
        | .ok ack_block_number =>
          if ack_block_number = block_number then
            match pack_dat_nat (block_number + 1)
                ((file.drop offset).take MAX_DATA_LEN) with
            | .error _ => .exited 1 sent
            | .ok dat_packet =>
              if ((file.drop offset).take MAX_DATA_LEN).length <
                  MAX_DATA_LEN then
                .success (sent ++ [(dat_packet, server_addr)])
              else
                put_file_loop rest (block_number + 1)
                  (offset + ((file.drop offset).take MAX_DATA_LEN).length)
                  file (sent ++ [(dat_packet, server_addr)])
          else .exited 1 sent
      else .exited 1 sent

/-- Model of `put_file(server, port, local_filename, remote_filename)`
(lines 172-226). `file` is the content of the local source file;
`origAddr` stands for `(server, port)`. -/
def put_file (origAddr : Nat) (remote_filename : Bytes) (file : Bytes)
    (events : List Datagram) : PutResult :=
  match pack_wrq remote_filename with
  | .error _ => .exited 1 []
  | .ok wrq => put_file_loop events 0 0 file [(wrq, origAddr)]

/-! ## Shared helper lemmas -/

/-- No character of `string.printable` is the NUL byte. -/
lemma printable_ne_zero {c : Nat} (h : string_printable.contains c = true) :
    c ≠ 0 := by
  intro h0
  subst h0
  exact absurd h (by decide)

/-- An ASCII-printable byte string contains no NUL byte. -/
lemma no_zero_of_printable {txt : Bytes}
    (h : is_ascii_printable txt = true) : ∀ b ∈ txt, b ≠ 0 := by
  intro b hb
  exact printable_ne_zero ((List.all_eq_true.mp h) b hb)

/-- Lemma: `findZero` on a NUL-free prefix followed by a NUL finds that NUL. -/
lemma findZero_append (fn rest : Bytes) (h : ∀ b ∈ fn, b ≠ 0) :
    findZero (fn ++ 0 :: rest) = some fn.length := by
  induction fn with
  | nil => simp [findZero]
  | cons b bs ih =>
    have hb : b ≠ 0 := h b (List.mem_cons_self b bs)
    simp [findZero, hb, ih (fun x hx => h x (List.mem_cons_of_mem b hx))]

/-- Dropping one past a NUL-free-prefix delimiter reaches the tail. -/
lemma drop_succ_append (fn rest : Bytes) (a : Nat) :
    (fn ++ a :: rest).drop (fn.length + 1) = rest := by
  have h : fn ++ a :: rest = (fn ++ [a]) ++ rest := by simp
  rw [h]
  have h2 : (fn ++ [a]).length = fn.length + 1 := by simp
  rw [← h2]
  exact List.drop_left (fn ++ [a]) rest

/-- Reassembling a 16-bit value from its network-order bytes. -/
lemma u16_be16 (n : Nat) (h : n ≤ 65535) :
    u16 (n / 256 % 256) (n % 256) = n := by
  simp only [u16]
  omega

/-- Lemma: `findZero` on a list with no zero byte finds nothing. -/
lemma findZero_none (l : Bytes) (h : ∀ b ∈ l, b ≠ 0) : findZero l = none := by
  induction l with
  | nil => rfl
  | cons b bs ih =>
    have hb : b ≠ 0 := h b (List.mem_cons_self b bs)
    simp [findZero, hb, ih (fun x hx => h x (List.mem_cons_of_mem b hx))]

/-- Decoding a request packet whose filename part is NUL-free: everything
after the first NUL, minus the final byte, becomes the mode. -/
lemma unpack_rrq_wrq_of_shape (o : Nat) (ho : o = 1 ∨ o = 2)
    (fn tail : Bytes) (hfn : ∀ b ∈ fn, b ≠ 0) :
    unpack_rrq_wrq o (0 :: o :: (fn ++ 0 :: tail)) =
      .ok (fn, tail.dropLast) := by
  have hu : unpack_opcode (0 :: o :: (fn ++ 0 :: tail)) = .ok o := by
    rcases ho with rfl | rfl <;> rfl
  have hfz : findZero ((0 :: o :: (fn ++ 0 :: tail)).drop 2) =
      some fn.length := by
    simpa using findZero_append fn tail hfn
  have htake : ((0 :: o :: (fn ++ 0 :: tail)).drop 2).take fn.length
      = fn := by
    simpa using List.take_left fn (0 :: tail)
  have hdrop : (0 :: o :: (fn ++ 0 :: tail)).drop (2 + fn.length + 1)
      = tail := by
    have h3 : 2 + fn.length + 1 = (fn.length + 1) + 2 := by omega
    rw [h3]
    simpa using drop_succ_append fn tail 0
  simp only [unpack_rrq_wrq, hu, hfz, htake, hdrop]
  simp [Bind.bind, Except.bind]

/-- Encoding a request with a printable filename succeeds with the
canonical layout, for both request opcodes. -/
lemma pack_rrq_wrq_ok (o : Nat) (fn mode : Bytes)
    (hfn : is_ascii_printable fn = true) :
    pack_rrq_wrq o fn mode = .ok (be16 o ++ (fn ++ [0]) ++ (mode ++ [0])) := by
  unfold pack_rrq_wrq
  rw [hfn]
  simp

/-- Lemma: `pack_dat` on valid fields succeeds with the canonical layout. -/
lemma pack_dat_ok (block : Nat) (payload : Bytes) (hblock : block ≤ 65535)
    (hpay : payload.length ≤ 512) :
    pack_dat (block : Int) payload =
      .ok (0 :: 3 :: (block / 256 % 256) :: (block % 256) :: payload) := by
  have hcond : (0 ≤ (block : Int) ∧ (block : Int) ≤ (MAX_BLOCK_NUMBER : Int)) := by
    constructor
    · exact Int.ofNat_nonneg block
    · have : MAX_BLOCK_NUMBER = 65535 := by decide
      rw [this]
      exact_mod_cast hblock
  unfold pack_dat
  rw [if_neg (not_not_intro hcond),
    if_neg (by simp only [MAX_DATA_LEN]; omega : ¬ payload.length > MAX_DATA_LEN)]
  simp [be16, DAT]

/-- Lemma: `pack_ack` on a valid block number succeeds with the canonical layout. -/
lemma pack_ack_ok (block : Nat) (hblock : block ≤ 65535) :
    pack_ack (block : Int) =
      .ok [0, 4, block / 256 % 256, block % 256] := by
  have hcond : (0 ≤ (block : Int) ∧ (block : Int) ≤ (MAX_BLOCK_NUMBER : Int)) := by
    constructor
    · exact Int.ofNat_nonneg block
    · have : MAX_BLOCK_NUMBER = 65535 := by decide
      rw [this]
      exact_mod_cast hblock
  unfold pack_ack
  rw [if_neg (not_not_intro hcond)]
  simp [be16, ACK]

/-- Lemma: `pack_err` with an explicit message and a valid code succeeds with the
canonical layout. -/
lemma pack_err_ok (code : Nat) (msg : Bytes) (hcode : code ≤ 7) :
    pack_err (code : Int) (some msg) =
      .ok (0 :: 5 :: (code / 256 % 256) :: (code % 256) :: (msg ++ [0])) := by
  have hkey : errorMessagesHasKey (code : Int) = true := by
    simp only [errorMessagesHasKey, decide_eq_true_eq]
    constructor
    · exact Int.ofNat_nonneg code
    · exact_mod_cast Nat.le_trans hcode (by omega)
  unfold pack_err
  rw [hkey]
  simp [be16, ERR]

end TFTP

open TFTP

/-- Lemma: `pack_dat_nat` agrees with `pack_dat` on every `Nat` block number. -/
lemma pack_dat_nat_eq (bn : Nat) (d : Bytes) :
    pack_dat_nat bn d = pack_dat (bn : Int) d := by
  by_cases h : bn ≤ MAX_BLOCK_NUMBER
  · have h2 : 0 ≤ (bn : Int) ∧ (bn : Int) ≤ (MAX_BLOCK_NUMBER : Int) :=
      ⟨Int.ofNat_nonneg bn, by exact_mod_cast h⟩
    unfold pack_dat_nat pack_dat
    rw [if_neg (not_not_intro h), if_neg (not_not_intro h2)]
    simp
  · have h2 : ¬ (0 ≤ (bn : Int) ∧ (bn : Int) ≤ (MAX_BLOCK_NUMBER : Int)) := by
      intro hc
      exact h (by exact_mod_cast hc.2)
    unfold pack_dat_nat pack_dat
    rw [if_pos h, if_pos h2]

/-- Lemma: `pack_ack_nat` agrees with `pack_ack` on every `Nat` block number. -/
lemma pack_ack_nat_eq (bn : Nat) :
    pack_ack_nat bn = pack_ack (bn : Int) := by
  by_cases h : bn ≤ MAX_BLOCK_NUMBER
  · have h2 : 0 ≤ (bn : Int) ∧ (bn : Int) ≤ (MAX_BLOCK_NUMBER : Int) :=
      ⟨Int.ofNat_nonneg bn, by exact_mod_cast h⟩
    unfold pack_ack_nat pack_ack
    rw [if_neg (not_not_intro h), if_neg (not_not_intro h2)]
    simp
  · have h2 : ¬ (0 ≤ (bn : Int) ∧ (bn : Int) ≤ (MAX_BLOCK_NUMBER : Int)) := by
      intro hc
      exact h (by exact_mod_cast hc.2)
    unfold pack_ack_nat pack_ack
    rw [if_pos h, if_pos h2]

/-- Lemma: `pack_dat_nat` on valid fields succeeds with the canonical layout. -/
lemma pack_dat_nat_ok (block : Nat) (payload : Bytes) (hblock : block ≤ 65535)
    (hpay : payload.length ≤ 512) :
    pack_dat_nat block payload =
      .ok (0 :: 3 :: (block / 256 % 256) :: (block % 256) :: payload) := by
  rw [pack_dat_nat_eq]
  exact pack_dat_ok block payload hblock hpay

/-- Lemma: `pack_ack_nat` on a valid block number succeeds with the canonical
layout. -/
lemma pack_ack_nat_ok (block : Nat) (hblock : block ≤ 65535) :
    pack_ack_nat block = .ok [0, 4, block / 256 % 256, block % 256] := by
  rw [pack_ack_nat_eq]
  exact pack_ack_ok block hblock

/-- C1: for every packet of each of the five kinds with valid field values
(ASCII-printable filename and mode, block number in 0..65535, payload of at
most 512 bytes, error code in 0..7), decoding the result of encoding it
yields the original packet fields. -/
theorem C1_codec_round_trip
    (fn mode : Bytes) (hfn : is_ascii_printable fn = true)
    (_hmode : is_ascii_printable mode = true)
    (block : Nat) (hblock : block ≤ 65535)
    (payload : Bytes) (hpay : payload.length ≤ 512)
    (code : Nat) (hcode : code ≤ 7) (msg : Bytes) :
    pack_rrq fn mode >>= unpack_rrq = Except.ok (fn, mode) ∧
    pack_wrq fn mode >>= unpack_wrq = Except.ok (fn, mode) ∧
    pack_dat (block : Int) payload >>= unpack_dat = Except.ok (block, payload) ∧
    pack_ack (block : Int) >>= unpack_ack = Except.ok block ∧
    pack_err (code : Int) (some msg) >>= unpack_err = Except.ok (code, msg) := by
  have hz := no_zero_of_printable hfn
  refine ⟨?_, ?_, ?_, ?_, ?_⟩
  · rw [pack_rrq, pack_rrq_wrq_ok RRQ fn mode hfn]
    have hshape : be16 RRQ ++ (fn ++ [0]) ++ (mode ++ [0]) =
        0 :: 1 :: (fn ++ 0 :: (mode ++ [0])) := by
      simp [be16, RRQ]
    simp only [Bind.bind, Except.bind, hshape, unpack_rrq]
    have h := unpack_rrq_wrq_of_shape 1 (Or.inl rfl) fn (mode ++ [0]) hz
    rw [List.dropLast_concat] at h
    exact h
  · rw [pack_wrq, pack_rrq_wrq_ok WRQ fn mode hfn]
    have hshape : be16 WRQ ++ (fn ++ [0]) ++ (mode ++ [0]) =
        0 :: 2 :: (fn ++ 0 :: (mode ++ [0])) := by
      simp [be16, WRQ]
    simp only [Bind.bind, Except.bind, hshape, unpack_wrq]
    have h := unpack_rrq_wrq_of_shape 2 (Or.inr rfl) fn (mode ++ [0]) hz
    rw [List.dropLast_concat] at h
    exact h
  · rw [pack_dat_ok block payload hblock hpay]
    simp only [Bind.bind, Except.bind, unpack_dat]
    rw [if_neg (by simp [u16, DAT])]
    rw [u16_be16 block hblock]
  · rw [pack_ack_ok block hblock]
    simp only [Bind.bind, Except.bind, unpack_ack]
    rw [if_neg (by simp [u16, ACK])]
    rw [u16_be16 block hblock]
  · rw [pack_err_ok code msg hcode]
    simp only [Bind.bind, Except.bind, unpack_err]
    rw [if_neg (by simp [u16, ERR])]
    rw [u16_be16 code (Nat.le_trans hcode (by omega))]
    simp

/-- Witness for C1 at concrete valid fields of every packet kind. -/
theorem C1_codec_round_trip_witness :
    pack_rrq [97] DEFAULT_MODE >>= unpack_rrq = Except.ok ([97], DEFAULT_MODE) ∧
    pack_wrq [97] DEFAULT_MODE >>= unpack_wrq = Except.ok ([97], DEFAULT_MODE) ∧
    pack_dat (7 : Nat) [65] >>= unpack_dat = Except.ok (7, [65]) ∧
    pack_ack (7 : Nat) >>= unpack_ack = Except.ok 7 ∧
    pack_err (1 : Nat) (some [66]) >>= unpack_err = Except.ok (1, [66]) :=
  C1_codec_round_trip [97] DEFAULT_MODE (by decide) (by decide)
    7 (by decide) [65] (by decide) 1 (by decide) [66]

/-- C7: encoding fails with `TFTPValueError` (a `ValueError` subclass) for
a non-ASCII-printable filename, a Data block number outside 0..65535, a
Data payload over 512 bytes, and an error code outside 0..7; all encoders
are pure (socket-free) functions, so the failure precedes any socket I/O;
`pack_err` with no message supplied uses the canonical message for the
code. -/
theorem C7_encode_rejects
    (fn mode : Bytes) (hfn : is_ascii_printable fn = false)
    (block : Int) (payload : Bytes) (code : Int) (msg : Option Bytes) :
    PyExc.tftpValueError.isValueError = true ∧
    pack_rrq fn mode = Except.error PyExc.tftpValueError ∧
    pack_wrq fn mode = Except.error PyExc.tftpValueError ∧
    (¬ (0 ≤ block ∧ block ≤ 65535) →
      pack_dat block payload = Except.error PyExc.tftpValueError) ∧
    (payload.length > 512 →
      pack_dat block payload = Except.error PyExc.tftpValueError) ∧
    (¬ (0 ≤ code ∧ code ≤ 7) →
      pack_err code msg = Except.error PyExc.tftpValueError) ∧
    (∀ c : Nat, c ≤ 7 →
      pack_err (c : Int) none = pack_err (c : Int) (some (ERROR_MESSAGES c))) := by
  have hmax : (MAX_BLOCK_NUMBER : Int) = 65535 := by decide
  refine ⟨rfl, ?_, ?_, ?_, ?_, ?_, ?_⟩
  · simp [pack_rrq, pack_rrq_wrq, hfn]
  · simp [pack_wrq, pack_rrq_wrq, hfn]
  · intro h
    rw [pack_dat, if_pos]
    rw [hmax]
    exact h
  · intro h
    unfold pack_dat
    rcases Decidable.em (0 ≤ block ∧ block ≤ (MAX_BLOCK_NUMBER : Int)) with hb | hb
    · rw [if_neg (not_not_intro hb),
        if_pos (by simp only [MAX_DATA_LEN]; omega)]
    · rw [if_pos hb]
  · intro h
    unfold pack_err
    rw [if_pos]
    simp only [errorMessagesHasKey, decide_eq_true_eq]
    exact h
  · intro c hc
    have hkey : errorMessagesHasKey (c : Int) = true := by
      simp only [errorMessagesHasKey, decide_eq_true_eq]
      exact ⟨Int.ofNat_nonneg c, by exact_mod_cast Nat.le_trans hc (by omega)⟩
    unfold pack_err
    rw [hkey]
    simp

/-- Witness for C7 at a concrete non-printable filename, out-of-range
block number, oversized payload and out-of-range error code. -/
theorem C7_encode_rejects_witness :
    PyExc.tftpValueError.isValueError = true ∧
    pack_rrq [200] DEFAULT_MODE = Except.error PyExc.tftpValueError ∧
    pack_wrq [200] DEFAULT_MODE = Except.error PyExc.tftpValueError ∧
    (¬ ((0 : Int) ≤ 65536 ∧ (65536 : Int) ≤ 65535) →
      pack_dat 65536 [] = Except.error PyExc.tftpValueError) ∧
    ((List.replicate 513 65 : Bytes).length > 512 →
      pack_dat 65536 (List.replicate 513 65) = Except.error PyExc.tftpValueError) ∧
    (¬ ((0 : Int) ≤ 8 ∧ (8 : Int) ≤ 7) →
      pack_err 8 none = Except.error PyExc.tftpValueError) ∧
    (∀ c : Nat, c ≤ 7 →
      pack_err (c : Int) none = pack_err (c : Int) (some (ERROR_MESSAGES c))) := by
  have h := C7_encode_rejects [200] DEFAULT_MODE (by decide) 65536
    (List.replicate 513 65) 8 none
  exact ⟨h.1, h.2.1, h.2.2.1, fun _ => h.2.2.2.1 (by omega),
    fun hl => h.2.2.2.2.1 hl, fun _ => h.2.2.2.2.2.1 (by omega),
    h.2.2.2.2.2.2⟩

/-- C8: on valid inputs every encoder emits exactly the specified wire
layout, multi-byte integers in network (big-endian) byte order:
`0x0001/0x0002 ++ filename ++ 0x00 ++ mode ++ 0x00` for requests,
`0x0003 ++ uint16 block ++ payload` for Data, `0x0004 ++ uint16 block`
for Ack, and `0x0005 ++ uint16 code ++ message ++ 0x00` for Error. -/
theorem C8_wire_layout
    (fn mode : Bytes) (hfn : is_ascii_printable fn = true)
    (block : Nat) (hblock : block ≤ 65535)
    (payload : Bytes) (hpay : payload.length ≤ 512)
    (code : Nat) (hcode : code ≤ 7) (msg : Bytes) :
    pack_rrq fn mode = Except.ok ([0, 1] ++ fn ++ [0] ++ mode ++ [0]) ∧
    pack_wrq fn mode = Except.ok ([0, 2] ++ fn ++ [0] ++ mode ++ [0]) ∧
    pack_dat (block : Int) payload =
      Except.ok ([0, 3] ++ [block / 256, block % 256] ++ payload) ∧
    pack_ack (block : Int) =
      Except.ok ([0, 4] ++ [block / 256, block % 256]) ∧
    pack_err (code : Int) (some msg) =
      Except.ok ([0, 5] ++ [code / 256, code % 256] ++ msg ++ [0]) := by
  have hd : block / 256 % 256 = block / 256 := by omega
  have hdc : code / 256 % 256 = code / 256 := by omega
  refine ⟨?_, ?_, ?_, ?_, ?_⟩
  · rw [pack_rrq, pack_rrq_wrq_ok RRQ fn mode hfn]
    simp [be16, RRQ]
  · rw [pack_wrq, pack_rrq_wrq_ok WRQ fn mode hfn]
    simp [be16, WRQ]
  · rw [pack_dat_ok block payload hblock hpay, hd]
    simp
  · rw [pack_ack_ok block hblock, hd]
    simp
  · rw [pack_err_ok code msg hcode, hdc]
    simp

/-- Witness for C8 at concrete valid fields of every packet kind. -/
theorem C8_wire_layout_witness :
    pack_rrq [97] DEFAULT_MODE =
      Except.ok ([0, 1] ++ [97] ++ [0] ++ DEFAULT_MODE ++ [0]) ∧
    pack_wrq [97] DEFAULT_MODE =
      Except.ok ([0, 2] ++ [97] ++ [0] ++ DEFAULT_MODE ++ [0]) ∧
    pack_dat ((700 : Nat) : Int) [65] =
      Except.ok ([0, 3] ++ [700 / 256, 700 % 256] ++ [65]) ∧
    pack_ack ((700 : Nat) : Int) =
      Except.ok ([0, 4] ++ [700 / 256, 700 % 256]) ∧
    pack_err ((1 : Nat) : Int) (some [66]) =
      Except.ok ([0, 5] ++ [1 / 256, 1 % 256] ++ [66] ++ [0]) :=
  C8_wire_layout [97] DEFAULT_MODE (by decide) 700 (by decide)
    [65] (by decide) 1 (by decide) [66]

/-- C9: the decoder `unpack_dat` performs no payload-length validation — any byte
string of length at least 4 whose leading two bytes encode opcode 3
decodes successfully, a payload longer than 512 bytes included; such a
decoded Data value is rejected by `pack_dat`, so decode-then-encode is not
a round trip. -/
theorem C9_unpack_dat_no_length_check
    (b0 b1 b2 b3 : Nat) (rest : Bytes) (h : u16 b0 b1 = 3) :
    unpack_dat (b0 :: b1 :: b2 :: b3 :: rest) =
      Except.ok (u16 b2 b3, rest) ∧
    unpack_dat ([0, 3, 0, 1] ++ List.replicate 513 65) =
      Except.ok (1, List.replicate 513 65) ∧
    pack_dat ((1 : Nat) : Int) (List.replicate 513 65) =
      Except.error PyExc.tftpValueError := by
  refine ⟨?_, by rfl, by rfl⟩
  rw [unpack_dat, if_neg]
  rw [h]
  simp [DAT]

/-- Witness for C9 at a concrete 600-byte oversized Data packet. -/
theorem C9_unpack_dat_no_length_check_witness :
    unpack_dat (0 :: 3 :: 0 :: 2 :: List.replicate 600 66) =
      Except.ok (u16 0 2, List.replicate 600 66) ∧
    unpack_dat ([0, 3, 0, 1] ++ List.replicate 513 65) =
      Except.ok (1, List.replicate 513 65) ∧
    pack_dat ((1 : Nat) : Int) (List.replicate 513 65) =
      Except.error PyExc.tftpValueError :=
  C9_unpack_dat_no_length_check 0 3 0 2 (List.replicate 600 66) (by decide)

/-- C10: the check `is_ascii_printable` accepts exactly the byte strings all of
whose characters lie in Python's `string.printable`, which contains the
whitespace controls tab, linefeed, vertical tab, form feed and carriage
return; hence `pack_rrq`/`pack_wrq` succeed on filenames with embedded
newlines or tabs, and on the empty filename. -/
theorem C10_is_ascii_printable (txt : Bytes) :
    (is_ascii_printable txt = true ↔
      ∀ c ∈ txt, string_printable.contains c = true) ∧
    ([9, 10, 11, 12, 13].all (fun c => string_printable.contains c) = true) ∧
    pack_rrq [102, 10, 9] DEFAULT_MODE =
      Except.ok ([0, 1] ++ [102, 10, 9] ++ [0] ++ DEFAULT_MODE ++ [0]) ∧
    pack_wrq [102, 10, 9] DEFAULT_MODE =
      Except.ok ([0, 2] ++ [102, 10, 9] ++ [0] ++ DEFAULT_MODE ++ [0]) ∧
    pack_rrq [] DEFAULT_MODE =
      Except.ok ([0, 1] ++ [0] ++ DEFAULT_MODE ++ [0]) := by
  refine ⟨?_, by decide, by rfl, by rfl, by rfl⟩
  simp [is_ascii_printable, List.all_eq_true]

/-- C5 counterexample: the claim as stated fails twice on concrete inputs.
An illegal leading opcode (6) makes `unpack_opcode` fail with
`TFTPValueError`, not `ProtocolError`; and a request packet carrying
trailing garbage after the mode's NUL terminator is not rejected —
`unpack_rrq` succeeds, absorbing the garbage into the mode field. -/
theorem C5_counterexample :
    unpack_opcode [0, 6, 0] = Except.error PyExc.tftpValueError ∧
    unpack_opcode [0, 6, 0] ≠ Except.error PyExc.protocolError ∧
    unpack_rrq [0, 1, 97, 0, 111, 99, 116, 101, 116, 0, 88, 89] =
      Except.ok ([97], [111, 99, 116, 101, 116, 0, 88]) := by
  refine ⟨by rfl, ?_, by rfl⟩
  intro h
  exact PyExc.noConfusion (Except.error.inj h)

/-- C5 (amended): decoding fails with `TFTPValueError` — a `ValueError`,
not a `ProtocolError` — when the leading 2-byte opcode is not in
{1,2,3,4,5}, and in each concrete decoder when the opcode in the bytes
does not match the expected kind; request decoding with no NUL byte after
the opcode fails with a plain `ValueError`; trailing garbage, however, is
not a decode failure: all bytes between the first NUL and the final byte
are returned as the mode. -/
theorem C5_decode_rejects
    (b0 b1 : Nat) (tail : Bytes)
    (hbad : u16 b0 b1 ≠ 1 ∧ u16 b0 b1 ≠ 2 ∧ u16 b0 b1 ≠ 3 ∧
      u16 b0 b1 ≠ 4 ∧ u16 b0 b1 ≠ 5) :
    unpack_opcode (b0 :: b1 :: tail) = Except.error PyExc.tftpValueError ∧
    PyExc.tftpValueError.isValueError = true ∧
    PyExc.tftpValueError ≠ PyExc.protocolError ∧
    (∀ (c0 c1 c2 c3 : Nat) (rest : Bytes), u16 c0 c1 ≠ 3 →
      unpack_dat (c0 :: c1 :: c2 :: c3 :: rest) =
        Except.error PyExc.tftpValueError) ∧
    (∀ (c0 c1 c2 c3 : Nat), u16 c0 c1 ≠ 4 →
      unpack_ack [c0, c1, c2, c3] = Except.error PyExc.tftpValueError) ∧
    (∀ (c0 c1 c2 c3 : Nat) (rest : Bytes), u16 c0 c1 ≠ 5 →
      unpack_err (c0 :: c1 :: c2 :: c3 :: rest) =
        Except.error PyExc.tftpValueError) ∧
    (∀ (pkt : Bytes) (o : Nat), unpack_opcode pkt = Except.ok o → o ≠ 1 →
      unpack_rrq pkt = Except.error PyExc.tftpValueError) ∧
    (∀ (pkt : Bytes) (o : Nat), unpack_opcode pkt = Except.ok o → o ≠ 2 →
      unpack_wrq pkt = Except.error PyExc.tftpValueError) ∧
    (∀ (rest : Bytes), (∀ b ∈ rest, b ≠ 0) →
      unpack_rrq (0 :: 1 :: rest) = Except.error PyExc.valueError) ∧
    (∀ (fn rest : Bytes), (∀ b ∈ fn, b ≠ 0) →
      unpack_rrq (0 :: 1 :: (fn ++ 0 :: rest)) =
        Except.ok (fn, rest.dropLast)) := by
  obtain ⟨h1, h2, h3, h4, h5⟩ := hbad
  refine ⟨?_, rfl, by decide, ?_, ?_, ?_, ?_, ?_, ?_, ?_⟩
  · simp only [unpack_opcode]
    rw [if_neg]
    simp only [RRQ, WRQ, DAT, ACK, ERR]
    push_neg
    exact ⟨h1, h2, h3, h4, h5⟩
  · intro c0 c1 c2 c3 rest h
    simp only [unpack_dat]
    rw [if_pos (by simpa [DAT] using h)]
  · intro c0 c1 c2 c3 h
    simp only [unpack_ack]
    rw [if_pos (by simpa [ACK] using h)]
  · intro c0 c1 c2 c3 rest h
    simp only [unpack_err]
    rw [if_pos (by simpa [ERR] using h)]
  · intro pkt o hpkt ho
    simp only [unpack_rrq, unpack_rrq_wrq, hpkt, Bind.bind, Except.bind]
    rw [if_pos (by simpa [RRQ] using Ne.symm ho)]
  · intro pkt o hpkt ho
    simp only [unpack_wrq, unpack_rrq_wrq, hpkt, Bind.bind, Except.bind]
    rw [if_pos (by simpa [WRQ] using Ne.symm ho)]
  · intro rest hrest
    have hop : unpack_opcode (0 :: 1 :: rest) = .ok 1 := rfl
    simp only [unpack_rrq, unpack_rrq_wrq, hop, Bind.bind, Except.bind]
    have hfz : findZero rest = none := findZero_none rest hrest
    simp [hfz, RRQ]
  · intro fn rest hfn
    exact unpack_rrq_wrq_of_shape 1 (Or.inl rfl) fn rest hfn

/-- Witness for the amended C5 at the concrete illegal opcode 6. -/
theorem C5_decode_rejects_witness :
    unpack_opcode [0, 6, 0] = Except.error PyExc.tftpValueError ∧
    PyExc.tftpValueError.isValueError = true :=
  have h := C5_decode_rejects 0 6 [0] (by decide)
  ⟨h.1, h.2.1⟩

/-- C4: the probe `check_remote_file` returns true when the first decodable reply is
a Data packet, false when it is an Error with code 1 (File Not Found),
raises `Err` for an Error with any other code, raises `ProtocolError` for
any other legal opcode, and returns false — never raising — when no reply
arrives within the inactivity timeout (the exhausted event list), on every
invocation. -/
theorem C4_check_remote_file
    (fn : Bytes) (hfn : is_ascii_printable fn = true)
    (pkt : Bytes) (src src2 : Nat) (rest rest2 : List Datagram)
    (b2 b3 : Nat) (msgb : Bytes) :
    check_remote_file fn [] = Except.ok false ∧
    (∀ e : PyExc, check_remote_file fn [] ≠ Except.error e) ∧
    (unpack_opcode pkt = Except.ok 3 →
      check_remote_file fn ((pkt, src) :: rest) = Except.ok true) ∧
    (u16 b2 b3 = 1 →
      check_remote_file fn ((0 :: 5 :: b2 :: b3 :: msgb, src2) :: rest2) =
        Except.ok false) ∧
    (u16 b2 b3 ≠ 1 →
      check_remote_file fn ((0 :: 5 :: b2 :: b3 :: msgb, src2) :: rest2) =
        Except.error (PyExc.errPacket (u16 b2 b3)
          (strBytes "File existence check error"))) ∧
    (∀ o : Nat, unpack_opcode pkt = Except.ok o → o ≠ 3 → o ≠ 5 →
      check_remote_file fn ((pkt, src) :: rest) =
        Except.error PyExc.protocolError) := by
  have hrrq : pack_rrq fn = .ok (be16 RRQ ++ (fn ++ [0]) ++ (DEFAULT_MODE ++ [0])) :=
    pack_rrq_wrq_ok RRQ fn DEFAULT_MODE hfn
  have hop5 : unpack_opcode (0 :: 5 :: b2 :: b3 :: msgb) = .ok 5 := rfl
  have herr : unpack_err (0 :: 5 :: b2 :: b3 :: msgb) =
      .ok (u16 b2 b3, msgb.dropLast) := by
    simp only [unpack_err]
    rw [if_neg (by simp [u16, ERR])]
  refine ⟨?_, ?_, ?_, ?_, ?_, ?_⟩
  · simp [check_remote_file, hrrq, Bind.bind, Except.bind, Pure.pure, Except.pure]
  · intro e h
    rw [show check_remote_file fn [] = Except.ok false by
      simp [check_remote_file, hrrq, Bind.bind, Except.bind, Pure.pure, Except.pure]] at h
    exact Except.noConfusion h
  · intro hpkt
    simp [check_remote_file, hrrq, hpkt, Bind.bind, Except.bind, Pure.pure, Except.pure, DAT]
  · intro h1
    simp [check_remote_file, hrrq, hop5, herr, Bind.bind, Except.bind,
      Pure.pure, Except.pure, DAT, ERR, ERR_FILE_NOT_FOUND, h1]
  · intro h1
    simp [check_remote_file, hrrq, hop5, herr, Bind.bind, Except.bind,
      Pure.pure, Except.pure, DAT, ERR, ERR_FILE_NOT_FOUND, h1]
  · intro o hpkt ho3 ho5
    simp [check_remote_file, hrrq, hpkt, Bind.bind, Except.bind,
      DAT, ERR, ho3, ho5]

/-- Witness for C4 at a concrete filename and concrete replies of each
kind. -/
theorem C4_check_remote_file_witness :
    check_remote_file [97] [] = Except.ok false ∧
    check_remote_file [97] [([0, 3, 0, 1, 65], 7)] = Except.ok true ∧
    check_remote_file [97] [([0, 5, 0, 1, 66, 0], 7)] = Except.ok false ∧
    check_remote_file [97] [([0, 5, 0, 4, 66, 0], 7)] =
      Except.error (PyExc.errPacket (u16 0 4)
        (strBytes "File existence check error")) ∧
    check_remote_file [97] [([0, 4, 0, 0], 7)] =
      Except.error PyExc.protocolError := by
  have h := C4_check_remote_file [97] (by decide) [0, 4, 0, 0] 7 7 [] []
    0 4 [66, 0]
  exact ⟨h.1, by rfl, by rfl, h.2.2.2.2.1 (by decide),
    h.2.2.2.2.2 4 (by rfl) (by decide) (by decide)⟩

/-- C2: in a read transfer, a Data packet whose block number equals the
expected one makes the engine append the payload to the output, send
Ack(expected) to that packet's source address, increment the expected
block number, and return success exactly when the payload is shorter than
512 bytes; concretely, Data packets of 512 and 200 bytes for blocks 1 and
2 (arriving from transfer addresses 7 and 8 after the request went to
address 0) produce a 712-byte output, exactly the two Acks 1 and 2 — each
sent to the corresponding packet's source — and success after the second
packet. -/
theorem C2_get_file_read_transfer
    (events : List Datagram) (src : Nat) (bn : Nat) (hbn : bn ≤ 65535)
    (payload file : Bytes) (sent : List Datagram) :
    (get_file_loop
        ((0 :: 3 :: (bn / 256 % 256) :: (bn % 256) :: payload, src) :: events)
        bn file sent =
      if payload.length < 512 then
        GetResult.success (file ++ payload)
          (sent ++ [([0, 4, bn / 256 % 256, bn % 256], src)])
      else
        get_file_loop events (bn + 1) (file ++ payload)
          (sent ++ [([0, 4, bn / 256 % 256, bn % 256], src)])) ∧
    (get_file 0 [102]
        [([0, 3, 0, 1] ++ List.replicate 512 65, 7),
         ([0, 3, 0, 2] ++ List.replicate 200 66, 8)] =
      GetResult.success (List.replicate 512 65 ++ List.replicate 200 66)
        [([0, 1, 102, 0, 111, 99, 116, 101, 116, 0], 0),
         ([0, 4, 0, 1], 7), ([0, 4, 0, 2], 8)]) ∧
    (List.replicate 512 65 ++ List.replicate 200 66 : Bytes).length = 712 := by
  refine ⟨?_, by rfl, by simp⟩
  have hop : unpack_opcode
      (0 :: 3 :: (bn / 256 % 256) :: (bn % 256) :: payload) = .ok 3 := rfl
  have hdat : unpack_dat
      (0 :: 3 :: (bn / 256 % 256) :: (bn % 256) :: payload) =
      .ok (bn, payload) := by
    simp only [unpack_dat]
    rw [if_neg (by simp [u16, DAT])]
    rw [u16_be16 bn hbn]
  have hack : pack_ack_nat bn = .ok [0, 4, bn / 256 % 256, bn % 256] :=
    pack_ack_nat_ok bn hbn
  simp only [get_file_loop, hop, hdat, hack, DAT, MAX_DATA_LEN, if_true]

/-- Witness for C2's general step at a concrete short Data packet. -/
theorem C2_get_file_read_transfer_witness :
    get_file_loop ((0 :: 3 :: (1 / 256 % 256) :: (1 % 256) :: [65], 7) :: [])
        1 [] [] =
      (if ([65] : Bytes).length < 512 then
        GetResult.success ([] ++ [65])
          ([] ++ [([0, 4, 1 / 256 % 256, 1 % 256], 7)])
      else
        get_file_loop [] (1 + 1) ([] ++ [65])
          ([] ++ [([0, 4, 1 / 256 % 256, 1 % 256], 7)])) :=
  (C2_get_file_read_transfer [] 7 1 (by decide) [65] [] []).1

/-- C3: in a write transfer, an Ack whose block number equals the expected
one makes the engine read the next up-to-512-byte chunk of the local
source, increment the expected block number, send Data(expected, chunk) to
the Ack's source address, and return success immediately when the chunk is
shorter than 512 bytes, consuming no further event (no final Ack awaited);
concretely, a 700-byte source sends exactly two Data packets of 512 then
188 bytes in response to Acks 0 and 1 and succeeds after the second. -/
theorem C3_put_file_write_transfer
    (events : List Datagram) (src : Nat) (bn : Nat) (hbn : bn + 1 ≤ 65535)
    (offset : Nat) (file : Bytes) (sent : List Datagram) :
    (put_file_loop (([0, 4, bn / 256 % 256, bn % 256], src) :: events)
        bn offset file sent =
      if ((file.drop offset).take 512).length < 512 then
        PutResult.success (sent ++
          [(0 :: 3 :: ((bn + 1) / 256 % 256) :: ((bn + 1) % 256) ::
              (file.drop offset).take 512, src)])
      else
        put_file_loop events (bn + 1)
          (offset + ((file.drop offset).take 512).length) file
          (sent ++
            [(0 :: 3 :: ((bn + 1) / 256 % 256) :: ((bn + 1) % 256) ::
                (file.drop offset).take 512, src)])) ∧
    (put_file 0 [102] (List.replicate 700 42)
        [([0, 4, 0, 0], 7), ([0, 4, 0, 1], 8)] =
      PutResult.success
        [([0, 2, 102, 0, 111, 99, 116, 101, 116, 0], 0),
         ([0, 3, 0, 1] ++ List.replicate 512 42, 7),
         ([0, 3, 0, 2] ++ List.replicate 188 42, 8)]) := by
  refine ⟨?_, by rfl⟩
  have hbn' : bn ≤ 65535 := by omega
  have hop : unpack_opcode [0, 4, bn / 256 % 256, bn % 256] = .ok 4 := rfl
  have hack : unpack_ack [0, 4, bn / 256 % 256, bn % 256] = .ok bn := by
    simp only [unpack_ack]
    rw [if_neg (by simp [u16, ACK])]
    rw [u16_be16 bn hbn']
  have hlen : ((file.drop offset).take 512).length ≤ 512 := by
    simp [List.length_take]
  have hdat : pack_dat_nat (bn + 1) ((file.drop offset).take 512) =
      .ok (0 :: 3 :: ((bn + 1) / 256 % 256) :: ((bn + 1) % 256) ::
        (file.drop offset).take 512) :=
    pack_dat_nat_ok (bn + 1) ((file.drop offset).take 512) hbn hlen
  rw [put_file_loop]
  simp only [hop, hack, hdat, ACK, MAX_DATA_LEN]
  simp

/-- Witness for C3's general step at a one-byte source file. -/
theorem C3_put_file_write_transfer_witness :
    put_file_loop (([0, 4, 0 / 256 % 256, 0 % 256], 7) :: []) 0 0 [65] [] =
      (if ((([65] : Bytes).drop 0).take 512).length < 512 then
        PutResult.success ([] ++
          [(0 :: 3 :: ((0 + 1) / 256 % 256) :: ((0 + 1) % 256) ::
              (([65] : Bytes).drop 0).take 512, 7)])
      else
        put_file_loop [] (0 + 1)
          (0 + ((([65] : Bytes).drop 0).take 512).length) [65]
          ([] ++
            [(0 :: 3 :: ((0 + 1) / 256 % 256) :: ((0 + 1) % 256) ::
                (([65] : Bytes).drop 0).take 512, 7)])) :=
  (C3_put_file_write_transfer [] 7 0 (by decide) 0 [65] []).1

/-- C6 counterexample: on a Data packet with a mismatched block number
(block 2 received while block 1 is expected), `get_file` does not surface
a protocol-violation error to its caller — the catch-all handler inside
the engine prints the error and exits the process with code 1. -/
theorem C6_counterexample :
    get_file 0 [102] [([0, 3, 0, 2, 65], 7)] =
      GetResult.exited 1 [] [([0, 1, 102, 0, 111, 99, 116, 101, 116, 0], 0)] ∧
    get_file 0 [102] [([0, 3, 0, 2, 65], 7)] ≠
      GetResult.raised PyExc.protocolError := by
  refine ⟨by rfl, ?_⟩
  intro h
  rw [show get_file 0 [102] [([0, 3, 0, 2, 65], 7)] =
      GetResult.exited 1 [] [([0, 1, 102, 0, 111, 99, 116, 101, 116, 0], 0)]
    from rfl] at h
  exact GetResult.noConfusion h

/-- C6 (amended): failure signalling is split. The existence probe raises
its error kinds to the caller (`Err` for a non-File-Not-Found server
error, `ProtocolError` for an unexpected opcode), and the initial
`pack_rrq` of `get_file` — the one call outside its try/except block,
src/tftp.py line 115 — raises `TFTPValueError` to the caller on a
non-printable filename. Every failure arising inside the transfer
receive loops, however, is handled internally: a mismatched Data block
number in a read transfer, or a mismatched Ack in a write transfer, ends
with the engine printing the error and exiting the process with code 1,
the output file receiving no further bytes; `put_file` catches even the
failure of its initial `pack_wrq` and exits likewise. For in-transfer
failures, translating errors into text and exit codes thus happens
inside the engine, not in the caller. -/
theorem C6_error_handling
    (fn : Bytes) (hfn : is_ascii_printable fn = true)
    (pkt : Bytes) (src : Nat) (rest : List Datagram) (b2 b3 : Nat)
    (msgb : Bytes) :
    (u16 b2 b3 ≠ 1 →
      check_remote_file fn ((0 :: 5 :: b2 :: b3 :: msgb, src) :: rest) =
        Except.error (PyExc.errPacket (u16 b2 b3)
          (strBytes "File existence check error"))) ∧
    (∀ o : Nat, unpack_opcode pkt = Except.ok o → o ≠ 3 → o ≠ 5 →
      check_remote_file fn ((pkt, src) :: rest) =
        Except.error PyExc.protocolError) ∧
    (∀ (events : List Datagram) (bn : Nat) (payload file : Bytes)
        (sent : List Datagram), u16 b2 b3 ≠ bn →
      get_file_loop ((0 :: 3 :: b2 :: b3 :: payload, src) :: events)
          bn file sent = GetResult.exited 1 file sent) ∧
    (∀ (events : List Datagram) (bn offset : Nat) (file : Bytes)
        (sent : List Datagram), u16 b2 b3 ≠ bn →
      put_file_loop (([0, 4, b2, b3], src) :: events) bn offset file sent =
        PutResult.exited 1 sent) ∧
    (∀ (orig : Nat) (fn2 : Bytes) (events : List Datagram),
      is_ascii_printable fn2 = false →
      get_file orig fn2 events = GetResult.raised PyExc.tftpValueError) ∧
    (∀ (orig : Nat) (fn2 file : Bytes) (events : List Datagram),
      is_ascii_printable fn2 = false →
      put_file orig fn2 file events = PutResult.exited 1 []) := by
  have hrrq : pack_rrq fn =
      .ok (be16 RRQ ++ (fn ++ [0]) ++ (DEFAULT_MODE ++ [0])) :=
    pack_rrq_wrq_ok RRQ fn DEFAULT_MODE hfn
  refine ⟨?_, ?_, ?_, ?_, ?_, ?_⟩
  · intro h1
    have hop5 : unpack_opcode (0 :: 5 :: b2 :: b3 :: msgb) = .ok 5 := rfl
    have herr : unpack_err (0 :: 5 :: b2 :: b3 :: msgb) =
        .ok (u16 b2 b3, msgb.dropLast) := by
      simp only [unpack_err]
      rw [if_neg (by simp [u16, ERR])]
    simp [check_remote_file, hrrq, hop5, herr, Bind.bind, Except.bind,
      Pure.pure, Except.pure, DAT, ERR, ERR_FILE_NOT_FOUND, h1]
  · intro o hpkt ho3 ho5
    simp [check_remote_file, hrrq, hpkt, Bind.bind, Except.bind,
      Pure.pure, Except.pure, DAT, ERR, ho3, ho5]
  · intro events bn payload file sent hne
    have hop : unpack_opcode (0 :: 3 :: b2 :: b3 :: payload) = .ok 3 := rfl
    have hdat : unpack_dat (0 :: 3 :: b2 :: b3 :: payload) =
        .ok (u16 b2 b3, payload) := by
      simp only [unpack_dat]
      rw [if_neg (by simp [u16, DAT])]
    simp [get_file_loop, hop, hdat, DAT, hne]
  · intro events bn offset file sent hne
    have hop : unpack_opcode [0, 4, b2, b3] = .ok 4 := rfl
    have hack : unpack_ack [0, 4, b2, b3] = .ok (u16 b2 b3) := by
      simp only [unpack_ack]
      rw [if_neg (by simp [u16, ACK])]
    simp [put_file_loop, hop, hack, ACK, hne]
  · intro orig fn2 events h
    simp [get_file, pack_rrq, pack_rrq_wrq, h]
  · intro orig fn2 file events h
    simp [put_file, pack_wrq, pack_rrq_wrq, h]

/-- Witness for the amended C6 at concrete mismatched packets and a
concrete non-printable filename. -/
theorem C6_error_handling_witness :
    check_remote_file [97] [([0, 5, 0, 4, 66, 0], 7)] =
      Except.error (PyExc.errPacket (u16 0 4)
        (strBytes "File existence check error")) ∧
    get_file_loop [([0, 3, 0, 4, 65], 7)] 1 [] [] =
      GetResult.exited 1 [] [] ∧
    put_file_loop [([0, 4, 0, 4], 7)] 1 0 [65] [] =
      PutResult.exited 1 [] ∧
    get_file 0 [200] [] = GetResult.raised PyExc.tftpValueError ∧
    put_file 0 [200] [65] [] = PutResult.exited 1 [] :=
  have h := C6_error_handling [97] (by decide) [0, 3, 0, 4, 65] 7 [] 0 4
    [66, 0]
  ⟨h.1 (by decide), h.2.2.1 [] 1 [65] [] [] (by decide),
    h.2.2.2.1 [] 1 0 [65] [] (by decide),
    h.2.2.2.2.1 0 [200] [] (by decide),
    h.2.2.2.2.2 0 [200] [65] [] (by decide)⟩

